import Mathlib

/-!
Shallow embedding of the job-orchestration core of the video-hosting
repository (Go backend + worker), together with theorems checking the
natural-language specification against it.

Conventions of the embedding:
* machine time is an explicit `Nat` argument (`now`) wherever the Go code
  calls `time.Now()`;
* Mongo ObjectIDs are plain `String`s;
* the two document collections (`jobs`, `videos`) are modelled as lists in
  a `SysState`; `UpdateOne` with an `_id` filter is modelled by replacing
  the matching entries, `FindOne` by `List.find?`;
* Go functions returning `error` become functions returning
  `SysState × Option String` (final store state, error message), so that a
  failed guard visibly leaves the store unchanged;
* Go `int` becomes `Int`.
-/

/-- Job status enumeration, from backend entities (part_005):
pending / processing / completed / failed. -/
inductive JobStatus
  | pending
  | processing
  | completed
  | failed
deriving DecidableEq, Repr

/-- Rendering of a `JobStatus` as the string the Go code stores in Mongo
and interpolates into error messages. -/
def JobStatus.toName : JobStatus → String
  | .pending => "pending"
  | .processing => "processing"
  | .completed => "completed"
  | .failed => "failed"

/-- Job type enumeration, from backend entities (part_005). -/
inductive JobType
  | transcode
  | thumbnail
deriving DecidableEq, Repr

/-- Video status enumeration, from backend entities (part_006). -/
inductive VideoStatus
  | uploaded
  | processing
  | ready
  | failed
deriving DecidableEq, Repr

/-- JSON-ish payload value: the Go payload is `map[string]interface{}`;
the pipeline only ever stores strings in it, but a dequeued message can
carry anything, so a non-string constructor is kept. -/
inductive JsonValue
  | str (s : String)
  | num (n : Int)
deriving DecidableEq, Repr

/-- One entry of a video record's `formats` list (part_006). -/
structure VideoFormat where
  quality : String
  filename : String
  size : Int
deriving DecidableEq, Repr

/-- Video entity (part_006). The Go `Duration float64` field is carried as
an `Int` placeholder; no operation verified here reads or writes it. -/
structure Video where
  id : String
  title : String
  description : String
  uploadedBy : String
  originalFilename : String
  duration : Int
  size : Int
  status : VideoStatus
  formats : List VideoFormat
  thumbnails : List String
  createdAt : Nat
  updatedAt : Nat
deriving DecidableEq, Repr

/-- Job entity (part_005). `errorMessage` and `workerId` are Go strings
whose zero value is the empty string; `startedAt` and `completedAt` are
nullable timestamps. -/
structure Job where
  id : String
  videoId : String
  type : JobType
  status : JobStatus
  progress : Int
  errorMessage : String
  workerId : String
  payload : List (String × JsonValue)
  createdAt : Nat
  updatedAt : Nat
  startedAt : Option Nat
  completedAt : Option Nat
deriving DecidableEq, Repr

/-- entities.NewJob (part_005): fresh job in status pending, progress 0.
The ObjectID the Go code allocates is passed in as `id`. -/
def NewJob (id videoID : String) (jobType : JobType)
    (payload : List (String × JsonValue)) (now : Nat) : Job :=
  { id := id
    videoId := videoID
    type := jobType
    status := JobStatus.pending
    progress := 0
    errorMessage := ""
    workerId := ""
    payload := payload
    createdAt := now
    updatedAt := now
    startedAt := none
    completedAt := none }

/-- Job.Start (part_005): mark the job processing, record the worker and
the start time. -/
def Job.Start (j : Job) (workerID : String) (now : Nat) : Job :=
  { j with
    status := JobStatus.processing
    workerId := workerID
    startedAt := some now
    updatedAt := now }

/-- Job.UpdateProgress (part_005). -/
def Job.UpdateProgress (j : Job) (progress : Int) (now : Nat) : Job :=
  { j with progress := progress, updatedAt := now }

/-- Job.Complete (part_005): completed, progress 100, completion time. -/
def Job.Complete (j : Job) (now : Nat) : Job :=
  { j with
    status := JobStatus.completed
    progress := 100
    completedAt := some now
    updatedAt := now }

/-- Job.Fail (part_005): failed, error text, completion time. -/
def Job.Fail (j : Job) (errorMessage : String) (now : Nat) : Job :=
  { j with
    status := JobStatus.failed
    errorMessage := errorMessage
    completedAt := some now
    updatedAt := now }

/-- Job.IsCompleted (part_005). -/
def Job.IsCompleted (j : Job) : Bool :=
  j.status == JobStatus.completed

/-- Video.UpdateStatus (part_006). -/
def Video.UpdateStatus (v : Video) (status : VideoStatus) (now : Nat) : Video :=
  { v with status := status, updatedAt := now }

/-- Video.AddFormat (part_006). -/
def Video.AddFormat (v : Video) (quality filename : String) (size : Int)
    (now : Nat) : Video :=
  { v with
    formats := v.formats ++ [{ quality := quality, filename := filename, size := size }]
    updatedAt := now }

/-- Video.AddThumbnail (part_006). -/
def Video.AddThumbnail (v : Video) (filename : String) (now : Nat) : Video :=
  { v with thumbnails := v.thumbnails ++ [filename], updatedAt := now }

/-- VideoProcessor.buildFFmpegArgs (worker processor, in
src/worker/internal/storage/client.go): the common x264/aac argument list
followed by the per-quality scale / maxrate / bufsize flags. The Go
`switch quality` is an equality chain on strings. -/
def buildFFmpegArgs (inputPath outputPath quality : String) : List String :=
  let args := ["-i", inputPath,
    "-c:v", "libx264",
    "-preset", "medium",
    "-crf", "23",
    "-c:a", "aac",
    "-b:a", "128k",
    "-movflags", "+faststart",
    "-y"]
  let args :=
    if quality == "480p" then
      args ++ ["-vf", "scale=-2:480", "-maxrate", "1M", "-bufsize", "2M"]
    else if quality == "720p" then
      args ++ ["-vf", "scale=-2:720", "-maxrate", "2.5M", "-bufsize", "5M"]
    else if quality == "1080p" then
      args ++ ["-vf", "scale=-2:720", "-maxrate", "2.5M", "-bufsize", "5M"]
    else
      args ++ ["-vf", "scale=-2:720", "-maxrate", "2.5M", "-bufsize", "5M"]
  args ++ [outputPath]

/-- Quality-specific tail of the ffmpeg argument list for the 480p tier. -/
def profile480 : List String :=
  ["-vf", "scale=-2:480", "-maxrate", "1M", "-bufsize", "2M"]

/-- Quality-specific tail of the ffmpeg argument list for every tier other
than 480p (720p, 1080p, and unrecognized strings all coincide). -/
def profile720 : List String :=
  ["-vf", "scale=-2:720", "-maxrate", "2.5M", "-bufsize", "5M"]

/-- Common head of the ffmpeg argument list, independent of quality. -/
def ffmpegBaseArgs (inputPath : String) : List String :=
  ["-i", inputPath,
    "-c:v", "libx264",
    "-preset", "medium",
    "-crf", "23",
    "-c:a", "aac",
    "-b:a", "128k",
    "-movflags", "+faststart",
    "-y"]

/-! ## Store state -/

/-- Combined document-store state: the `jobs` and `videos` Mongo
collections shared by backend and worker. -/
structure SysState where
  jobs : List Job
  videos : List Video
deriving DecidableEq, Repr

/-- FindOne on the jobs collection by `_id`. -/
def jobLookup (st : SysState) (jobID : String) : Option Job :=
  st.jobs.find? (fun j => j.id == jobID)

/-- FindOne on the videos collection by `_id`. -/
def videoLookup (st : SysState) (videoID : String) : Option Video :=
  st.videos.find? (fun v => v.id == videoID)

/-- UpdateOne on the jobs collection: entries whose `_id` matches the new
document are replaced, everything else is untouched. -/
def replaceJob (st : SysState) (j : Job) : SysState :=
  { st with jobs := st.jobs.map (fun x => if x.id == j.id then j else x) }

/-- UpdateOne on the videos collection. -/
def replaceVideo (st : SysState) (v : Video) : SysState :=
  { st with videos := st.videos.map (fun x => if x.id == v.id then v else x) }

/-- Find on the jobs collection by `video_id`
(JobRepositoryImpl.GetByVideoID). -/
def jobsOf (st : SysState) (videoID : String) : List Job :=
  st.jobs.filter (fun j => j.videoId == videoID)

/-! ## Backend ProcessingService (processing_service.go)

Each service method returns the final store state paired with an optional
error message, mirroring the Go `error` return: on an error the store is
exactly as it was, because the Go code returns before calling Update. -/

/-- ProcessingService.StartJob: fetch the job, refuse unless it is
pending, else persist `job.Start(workerID)`. -/
def ProcessingService.StartJob (st : SysState) (jobID workerID : String)
    (now : Nat) : SysState × Option String :=
  match jobLookup st jobID with
  | none => (st, some "failed to get job: job not found")
  | some job =>
    if job.status ≠ JobStatus.pending then
      (st, some ("job is not in pending status: " ++ job.status.toName))
    else
      (replaceJob st (job.Start workerID now), none)

/-- ProcessingService.UpdateJobProgress: range-check the progress, fetch
the job, persist `job.UpdateProgress(progress)`. No status guard. -/
def ProcessingService.UpdateJobProgress (st : SysState) (jobID : String)
    (progress : Int) (now : Nat) : SysState × Option String :=
  if progress < 0 ∨ progress > 100 then
    (st, some "invalid progress value")
  else
    match jobLookup st jobID with
    | none => (st, some "failed to get job: job not found")
    | some job =>
      (replaceJob st (job.UpdateProgress progress now), none)

/-- ProcessingService.checkVideoCompletion: fetch all jobs of the video;
if every one of them is completed (vacuously true for an empty list),
set the video status to ready; otherwise leave the store untouched. -/
def ProcessingService.checkVideoCompletion (st : SysState) (videoID : String)
    (now : Nat) : SysState × Option String :=
  let jobs := jobsOf st videoID
  let allCompleted := jobs.all Job.IsCompleted
  if allCompleted then
    match videoLookup st videoID with
    | none => (st, some "failed to get video: video not found")
    | some video =>
      (replaceVideo st (video.UpdateStatus VideoStatus.ready now), none)
  else
    (st, none)

/-- ProcessingService.CompleteJob: persist `job.Complete()` and run the
completion check for the owning video. No status guard. -/
def ProcessingService.CompleteJob (st : SysState) (jobID : String)
    (now : Nat) : SysState × Option String :=
  match jobLookup st jobID with
  | none => (st, some "failed to get job: job not found")
  | some job =>
    let st1 := replaceJob st (job.Complete now)
    ProcessingService.checkVideoCompletion st1 job.videoId now

/-- ProcessingService.markVideoAsFailed: set the video status to failed.
The `errorMessage` argument is received but never stored — the video
record has no error-message field. -/
def ProcessingService.markVideoAsFailed (st : SysState) (videoID : String)
    (errorMessage : String) (now : Nat) : SysState × Option String :=
  match videoLookup st videoID with
  | none => (st, some "failed to get video: video not found")
  | some video =>
    (replaceVideo st (video.UpdateStatus VideoStatus.failed now), none)

/-- ProcessingService.FailJob: persist `job.Fail(errorMessage)` and mark
the owning video failed. No status guard. -/
def ProcessingService.FailJob (st : SysState) (jobID errorMessage : String)
    (now : Nat) : SysState × Option String :=
  match jobLookup st jobID with
  | none => (st, some "failed to get job: job not found")
  | some job =>
    let st1 := replaceJob st (job.Fail errorMessage now)
    ProcessingService.markVideoAsFailed st1 job.videoId errorMessage now

/-! ## Worker MongoClient (worker/internal/queue/mongo.go)

These are raw UpdateOne calls: a filter that matches nothing is a silent
no-op (UpdateOne reports zero matched documents, not an error), so the
functions are total on the state. The Go functions take the status as a
string; the worker only ever passes "processing" / "completed" / "failed",
rendered here as `JobStatus` values. -/

/-- MongoClient.UpdateJobStatus: set status / progress / updated_at;
worker_id only when nonempty; started_at when moving to processing;
completed_at when moving to completed or failed. -/
def MongoClient.UpdateJobStatus (st : SysState) (jobID : String)
    (status : JobStatus) (workerID : String) (progress : Int)
    (now : Nat) : SysState :=
  match jobLookup st jobID with
  | none => st
  | some j =>
    let j1 := { j with status := status, progress := progress, updatedAt := now }
    let j2 := if workerID ≠ "" then { j1 with workerId := workerID } else j1
    let j3 :=
      if status = JobStatus.processing then
        { j2 with startedAt := some now }
      else if status = JobStatus.completed ∨ status = JobStatus.failed then
        { j2 with completedAt := some now }
      else j2
    replaceJob st j3

/-- MongoClient.FailJob: set status failed, error_message, completed_at,
updated_at on the job document. Nothing else is touched; in particular
the videos collection is not. -/
def MongoClient.FailJob (st : SysState) (jobID errorMessage : String)
    (now : Nat) : SysState :=
  match jobLookup st jobID with
  | none => st
  | some j =>
    replaceJob st
      { j with
        status := JobStatus.failed
        errorMessage := errorMessage
        completedAt := some now
        updatedAt := now }

/-- MongoClient.UpdateVideoStatus: set status and updated_at on the video
document. -/
def MongoClient.UpdateVideoStatus (st : SysState) (videoID : String)
    (status : VideoStatus) (now : Nat) : SysState :=
  match videoLookup st videoID with
  | none => st
  | some v =>
    replaceVideo st { v with status := status, updatedAt := now }

/-- MongoClient.AreAllJobsCompleted: count the jobs of the video and the
completed jobs of the video; true when the two counts agree and are
positive. -/
def MongoClient.AreAllJobsCompleted (st : SysState) (videoID : String) : Bool :=
  let totalJobs := (st.jobs.filter (fun j => j.videoId == videoID)).length
  let completedJobs :=
    (st.jobs.filter
      (fun j => j.videoId == videoID && j.status == JobStatus.completed)).length
  decide (0 < totalJobs) && totalJobs == completedJobs

/-! ## Worker VideoProcessor (worker processor, client.go) -/

/-- VideoProcessor.StartJob: a raw status write to processing with the
worker id and progress 0 — unlike the backend StartJob there is no
pending-status guard. -/
def VideoProcessor.StartJob (st : SysState) (jobID workerID : String)
    (now : Nat) : SysState :=
  MongoClient.UpdateJobStatus st jobID JobStatus.processing workerID 0 now

/-- Completion aggregation step inside VideoProcessor.CompleteJob: if all
jobs of the video are completed (per AreAllJobsCompleted) write video
status ready, else do nothing. -/
def workerAggregate (st : SysState) (videoID : String) (now : Nat) : SysState :=
  if MongoClient.AreAllJobsCompleted st videoID then
    MongoClient.UpdateVideoStatus st videoID VideoStatus.ready now
  else
    st

/-- VideoProcessor.CompleteJob: write the job completed with progress 100,
re-read it to learn its video, then run the completion aggregation. A
failed re-read is logged and swallowed. -/
def VideoProcessor.CompleteJob (st : SysState) (jobID : String)
    (now : Nat) : SysState :=
  let st1 := MongoClient.UpdateJobStatus st jobID JobStatus.completed "" 100 now
  match jobLookup st1 jobID with
  | none => st1
  | some job => workerAggregate st1 job.videoId now

/-- VideoProcessor.FailJob: delegates to MongoClient.FailJob — the job
document alone is updated; the owning video is left as it is. -/
def VideoProcessor.FailJob (st : SysState) (jobID errorMessage : String)
    (now : Nat) : SysState :=
  MongoClient.FailJob st jobID errorMessage now

/-! ## Wire messages and the fan-out scheduler -/

/-- Queue wire message `{id, video_id, type, payload}` (both the backend
JobPublisher and the worker main decode this shape). -/
structure JobMessage where
  id : String
  videoId : String
  type : String
  payload : List (String × JsonValue)
deriving DecidableEq, Repr

/-- Observable event of the fan-out path: a video-status store write, a
job-store create, or an enqueue onto a named queue. -/
inductive FanoutEvent
  | videoStatusWrite (videoID : String) (status : VideoStatus)
  | jobCreate (job : Job)
  | enqueue (queueName : String) (msg : JobMessage)
deriving DecidableEq, Repr

/-- JobRepositoryImpl.Create: InsertOne, which errors on a duplicate
`_id` and otherwise appends the document. -/
def JobRepository.Create (st : SysState) (job : Job) :
    Except String SysState :=
  if st.jobs.any (fun j => j.id == job.id) then
    Except.error "failed to create job: duplicate id"
  else
    Except.ok { st with jobs := st.jobs ++ [job] }

/-- JobPublisher.PublishTranscodeJob wire message: type transcode,
payload carrying only the quality tag. -/
def PublishTranscodeJobMsg (videoID jobID quality : String) : JobMessage :=
  { id := jobID
    videoId := videoID
    type := "transcode"
    payload := [("quality", JsonValue.str quality)] }

/-- JobPublisher.PublishThumbnailJob wire message: type thumbnail, empty
payload. -/
def PublishThumbnailJobMsg (videoID jobID : String) : JobMessage :=
  { id := jobID
    videoId := videoID
    type := "thumbnail"
    payload := [] }

/-- Transcode part of VideoService.ScheduleProcessingJobs: for each
quality (paired here with the ObjectID the Go code would allocate for it)
create the pending transcode job, then publish its message — create
before enqueue, one quality after the other. Stops at the first error. -/
def scheduleTranscodeJobs (st : SysState) (videoID : String)
    (pairs : List (String × String)) (now : Nat) (acc : List FanoutEvent) :
    (SysState × List FanoutEvent) × Option String :=
  match pairs with
  | [] => ((st, acc), none)
  | (quality, jobID) :: rest =>
    let job := NewJob jobID videoID JobType.transcode
      [("video_id", JsonValue.str videoID), ("quality", JsonValue.str quality)] now
    match JobRepository.Create st job with
    | Except.error e => ((st, acc), some e)
    | Except.ok st1 =>
      let acc1 := acc ++ [FanoutEvent.jobCreate job,
        FanoutEvent.enqueue "video_jobs" (PublishTranscodeJobMsg videoID jobID quality)]
      scheduleTranscodeJobs st1 videoID rest now acc1

/-- VideoService.ScheduleProcessingJobs (part_004): set the video status
to processing, create and publish the thumbnail job, then create and
publish one transcode job per quality in {480p, 720p, 1080p}. The four
ObjectIDs the Go code allocates are the explicit id arguments. Returns
the final store state, the ordered trace of store writes and enqueues,
and the first error if any step failed. -/
def VideoService.ScheduleProcessingJobs (st : SysState) (videoID : String)
    (thumbID id480 id720 id1080 : String) (now : Nat) :
    (SysState × List FanoutEvent) × Option String :=
  match videoLookup st videoID with
  | none => ((st, []), some "failed to update video status: failed to get video: video not found")
  | some video =>
    let st1 := replaceVideo st (video.UpdateStatus VideoStatus.processing now)
    let acc1 := [FanoutEvent.videoStatusWrite videoID VideoStatus.processing]
    let thumbnailJob := NewJob thumbID videoID JobType.thumbnail
      [("video_id", JsonValue.str videoID)] now
    match JobRepository.Create st1 thumbnailJob with
    | Except.error e => ((st1, acc1), some e)
    | Except.ok st2 =>
      let acc2 := acc1 ++ [FanoutEvent.jobCreate thumbnailJob,
        FanoutEvent.enqueue "video_jobs" (PublishThumbnailJobMsg videoID thumbID)]
      scheduleTranscodeJobs st2 videoID
        [("480p", id480), ("720p", id720), ("1080p", id1080)] now acc2

/-! ## Worker loop dispatch (worker main, part_000)

The per-message behavior of processJobs after a successful JSON decode is
modelled as an effect trace. Store reads/writes and object-storage calls
become trace entries; the external ffmpeg invocation is traced with its
argument list. `none` models a Go panic (the message dispatch never
reaches a job outcome). The success path of an executor is traced up to
the terminal completed write; the aggregation that follows a completion
is state-dependent and is modelled by `VideoProcessor.CompleteJob` in the
state model above. `ext` stands for the extension of the video's original
filename, which the executors read from the video record. -/

/-- Effects the worker can perform while handling one message. -/
inductive WorkerEffect
  | jobStatusWrite (jobID : String) (status : JobStatus) (workerID : String) (progress : Int)
  | jobFailWrite (jobID : String) (errorMessage : String)
  | videoRead (videoID : String)
  | storageDownload (objectName : String)
  | storageUpload (objectName : String)
  | storageStat (objectName : String)
  | storageDelete (objectName : String)
  | ffmpegRun (args : List String)
  | videoFormatWrite (videoID quality filename : String)
  | videoThumbnailWrite (videoID filename : String)
deriving DecidableEq, Repr

/-- Whether an effect is an object-storage call (download, upload, stat
or delete against MinIO). -/
def WorkerEffect.isObjectStorage : WorkerEffect → Bool
  | .storageDownload _ => true
  | .storageUpload _ => true
  | .storageStat _ => true
  | .storageDelete _ => true
  | _ => false

/-- Lookup of a payload key, modelling `job.Payload["quality"]`. -/
def payloadLookup (payload : List (String × JsonValue)) (key : String) :
    Option JsonValue :=
  (payload.find? (fun kv => kv.fst == key)).map (fun kv => kv.snd)

/-- Success-path effect trace of VideoProcessor.TranscodeVideo: read the
video record, progress 10, download the original, progress 30, run
ffmpeg, progress 80, upload the processed rendition, append the format. -/
def transcodeEffects (videoID jobID quality ext : String) : List WorkerEffect :=
  let outputFilename := videoID ++ "_" ++ quality ++ ".mp4"
  [WorkerEffect.videoRead videoID,
   WorkerEffect.jobStatusWrite jobID JobStatus.processing "" 10,
   WorkerEffect.storageDownload ("videos/original/" ++ videoID ++ ext),
   WorkerEffect.jobStatusWrite jobID JobStatus.processing "" 30,
   WorkerEffect.ffmpegRun
     (buildFFmpegArgs ("/tmp/video-processing/input_" ++ videoID ++ ext)
       ("/tmp/video-processing/output_" ++ outputFilename) quality),
   WorkerEffect.jobStatusWrite jobID JobStatus.processing "" 80,
   WorkerEffect.storageUpload ("videos/processed/" ++ outputFilename),
   WorkerEffect.videoFormatWrite videoID quality outputFilename]

/-- Success-path effect trace of VideoProcessor.GenerateThumbnail. -/
def thumbnailEffects (videoID jobID ext : String) : List WorkerEffect :=
  let thumbnailFilename := videoID ++ "_thumb.jpg"
  [WorkerEffect.videoRead videoID,
   WorkerEffect.jobStatusWrite jobID JobStatus.processing "" 20,
   WorkerEffect.storageDownload ("videos/original/" ++ videoID ++ ext),
   WorkerEffect.jobStatusWrite jobID JobStatus.processing "" 50,
   WorkerEffect.ffmpegRun
     ["-i", "/tmp/video-processing/thumb_input_" ++ videoID ++ ext,
      "-vf", "thumbnail,scale=320:240",
      "-frames:v", "1",
      "-q:v", "2",
      "-y",
      "/tmp/video-processing/thumb_" ++ thumbnailFilename],
   WorkerEffect.jobStatusWrite jobID JobStatus.processing "" 80,
   WorkerEffect.storageUpload thumbnailFilename,
   WorkerEffect.videoThumbnailWrite videoID thumbnailFilename]

/-- processJobs after a successful decode: StartJob, then the switch on
the message type. The transcode arm evaluates the unchecked assertion
quality, modelled as a match whose fallthrough is `none` — a panic. The
default arm fails the job with the unknown-job-type error and performs
nothing else. -/
def processDecodedMessage (m : JobMessage) (workerID ext : String) :
    Option (List WorkerEffect) :=
  let start := WorkerEffect.jobStatusWrite m.id JobStatus.processing workerID 0
  if m.type == "transcode" then
    match payloadLookup m.payload "quality" with
    | some (JsonValue.str quality) =>
      some (start :: transcodeEffects m.videoId m.id quality ext
        ++ [WorkerEffect.jobStatusWrite m.id JobStatus.completed "" 100])
    | _ => none
  else if m.type == "thumbnail" then
    some (start :: thumbnailEffects m.videoId m.id ext
      ++ [WorkerEffect.jobStatusWrite m.id JobStatus.completed "" 100])
  else
    some [start, WorkerEffect.jobFailWrite m.id ("unknown job type: " ++ m.type)]

/-! ## Redis dequeue (worker queue client and backend queue client)

The BRPop reply of the external Redis collaborator is the input: a popped
key/value pair, the nil reply a blocking pop yields when the queue stays
empty through the whole timeout, or a connectivity error. -/

/-- Reply of a blocking BRPop call. -/
inductive BRPopResult
  | popped (queueName item : String)
  | nilReply
  | connError (e : String)
deriving DecidableEq, Repr

/-- Worker RedisClient.Dequeue (worker/internal/queue, redis part): the
redis.Nil reply of an empty-queue timeout is translated to a nil item
with a nil error; other errors propagate. -/
def WorkerRedisClient.Dequeue (r : BRPopResult) :
    Except String (Option String) :=
  match r with
  | BRPopResult.popped _ item => Except.ok (some item)
  | BRPopResult.nilReply => Except.ok none
  | BRPopResult.connError e => Except.error e

/-- Backend RedisClient.Dequeue (part_011): every error of the BRPop
call, the redis.Nil empty-queue reply included, is returned as an error
to the caller — there is no nil-item success path. -/
def BackendRedisClient.Dequeue (r : BRPopResult) : Except String String :=
  match r with
  | BRPopResult.popped _ item => Except.ok item
  | BRPopResult.nilReply => Except.error "redis: nil"
  | BRPopResult.connError e => Except.error e

/-! ## Concrete records and states used by witnesses and counterexamples -/

/-- Concrete transcode message whose payload lacks a quality key, used
for C9. -/
def c9Message : JobMessage :=
  { id := "job-1", videoId := "vid-1", type := "transcode", payload := [] }

/-- Concrete processing job owned by video v1. -/
def c1Job : Job :=
  { id := "j1", videoId := "v1", type := JobType.transcode
    status := JobStatus.processing, progress := 30, errorMessage := ""
    workerId := "w1", payload := [("quality", JsonValue.str "480p")]
    createdAt := 0, updatedAt := 3, startedAt := some 1, completedAt := none }

/-- Concrete video v1 in status processing. -/
def c1Video : Video :=
  { id := "v1", title := "clip", description := "", uploadedBy := "u"
    originalFilename := "clip.mp4", duration := 0, size := 100
    status := VideoStatus.processing, formats := [], thumbnails := []
    createdAt := 0, updatedAt := 0 }

/-- State with one processing job and its processing video. -/
def c1State : SysState := { jobs := [c1Job], videos := [c1Video] }

/-- Concrete completed job owned by video v1. -/
def c8Job : Job :=
  { id := "j1", videoId := "v1", type := JobType.thumbnail
    status := JobStatus.completed, progress := 100, errorMessage := ""
    workerId := "w1", payload := []
    createdAt := 0, updatedAt := 5, startedAt := some 1, completedAt := some 5 }

/-- State with one completed job and its video. -/
def c8State : SysState := { jobs := [c8Job], videos := [c1Video] }

/-- Concrete pending job owned by video v1. -/
def c10Job : Job :=
  { id := "j1", videoId := "v1", type := JobType.transcode
    status := JobStatus.pending, progress := 0, errorMessage := ""
    workerId := "", payload := [("quality", JsonValue.str "720p")]
    createdAt := 0, updatedAt := 0, startedAt := none, completedAt := none }

/-- State with one pending job and its video. -/
def c10State : SysState := { jobs := [c10Job], videos := [c1Video] }

/-- Expected event trace of a successful fan-out for one video: the
processing status write, then for the thumbnail job and each transcode
quality (480p, 720p, 1080p, in that order) a job-store create followed by
the matching enqueue onto the video_jobs queue. -/
def fanoutTrace (videoID thumbID id480 id720 id1080 : String) (now : Nat) :
    List FanoutEvent :=
  [FanoutEvent.videoStatusWrite videoID VideoStatus.processing,
   FanoutEvent.jobCreate (NewJob thumbID videoID JobType.thumbnail
     [("video_id", JsonValue.str videoID)] now),
   FanoutEvent.enqueue "video_jobs" (PublishThumbnailJobMsg videoID thumbID),
   FanoutEvent.jobCreate (NewJob id480 videoID JobType.transcode
     [("video_id", JsonValue.str videoID), ("quality", JsonValue.str "480p")] now),
   FanoutEvent.enqueue "video_jobs" (PublishTranscodeJobMsg videoID id480 "480p"),
   FanoutEvent.jobCreate (NewJob id720 videoID JobType.transcode
     [("video_id", JsonValue.str videoID), ("quality", JsonValue.str "720p")] now),
   FanoutEvent.enqueue "video_jobs" (PublishTranscodeJobMsg videoID id720 "720p"),
   FanoutEvent.jobCreate (NewJob id1080 videoID JobType.transcode
     [("video_id", JsonValue.str videoID), ("quality", JsonValue.str "1080p")] now),
   FanoutEvent.enqueue "video_jobs" (PublishTranscodeJobMsg videoID id1080 "1080p")]

/-! ## Helper lemmas -/

/-- Finding by key after replacing all entries that share the key of the
replacement: the search now returns the replacement. -/
theorem find_replace_found {α : Type} (key : α → String) (l : List α)
    (k : String) (a b : α)
    (hfind : l.find? (fun x => key x == k) = some a) (hb : key b = k) :
    (l.map (fun x => if key x == key b then b else x)).find?
      (fun x => key x == k) = some b := by
  induction l with
  | nil => simp at hfind
  | cons hd tl ih =>
    by_cases h : key hd = k
    · have hrep : (key hd == key b) = true := by
        simp [h, hb]
      simp only [List.map_cons, hrep, if_true]
      exact List.find?_cons_of_pos _ (by simp [hb])
    · have hne : (key hd == k) = false := by simpa using h
      have hrep : (key hd == key b) = false := by
        simp [hb, h]
      rw [List.find?_cons_of_neg _ (by simp [hne])] at hfind
      simp only [List.map_cons, hrep, if_false]
      rw [List.find?_cons_of_neg _ (by simp [hne])]
      exact ih hfind

/-- jobLookup after replaceJob with a document carrying the looked-up id
returns the replacement. -/
theorem jobLookup_replaceJob (st : SysState) (jobID : String) (j jnew : Job)
    (hj : jobLookup st jobID = some j) (hid : jnew.id = jobID) :
    jobLookup (replaceJob st jnew) jobID = some jnew := by
  unfold jobLookup replaceJob
  unfold jobLookup at hj
  exact find_replace_found (fun x => x.id) st.jobs jobID j jnew hj hid

/-- videoLookup after replaceVideo with a document carrying the looked-up
id returns the replacement. -/
theorem videoLookup_replaceVideo (st : SysState) (videoID : String)
    (v vnew : Video)
    (hv : videoLookup st videoID = some v) (hid : vnew.id = videoID) :
    videoLookup (replaceVideo st vnew) videoID = some vnew := by
  unfold videoLookup replaceVideo
  unfold videoLookup at hv
  exact find_replace_found (fun x => x.id) st.videos videoID v vnew hv hid

/-- MongoClient.UpdateVideoStatus never touches the jobs collection. -/
theorem UpdateVideoStatus_jobs (st : SysState) (videoID : String)
    (status : VideoStatus) (now : Nat) :
    (MongoClient.UpdateVideoStatus st videoID status now).jobs = st.jobs := by
  unfold MongoClient.UpdateVideoStatus
  cases videoLookup st videoID <;> rfl

/-- AreAllJobsCompleted only reads the jobs collection. -/
theorem AreAllJobsCompleted_congr (st1 st2 : SysState) (videoID : String)
    (h : st1.jobs = st2.jobs) :
    MongoClient.AreAllJobsCompleted st1 videoID =
      MongoClient.AreAllJobsCompleted st2 videoID := by
  unfold MongoClient.AreAllJobsCompleted
  rw [h]

/-- Filtering by a conjunction never yields more entries than filtering
by the first conjunct alone. -/
theorem length_filter_and_le {α : Type} (l : List α) (p q : α → Bool) :
    (l.filter (fun a => p a && q a)).length ≤ (l.filter p).length := by
  induction l with
  | nil => simp
  | cons hd tl ih =>
    rw [List.filter_cons, List.filter_cons]
    cases hp : p hd <;> cases hq : q hd <;> simp [hp, hq] <;> omega

/-- The filtered count equals the conjunction-filtered count exactly when
every filtered entry satisfies the second conjunct. -/
theorem length_filter_eq_iff_all {α : Type} (l : List α) (p q : α → Bool) :
    ((l.filter p).length = (l.filter (fun a => p a && q a)).length) ↔
      (l.filter p).all q = true := by
  induction l with
  | nil => simp
  | cons hd tl ih =>
    rw [List.filter_cons, List.filter_cons]
    cases hp : p hd
    · simpa [hp] using ih
    · cases hq : q hd
      · simp [hp, hq]
        have hle := length_filter_and_le tl p q
        omega
      · simpa [hp, hq] using ih

/-- replaceJob never touches the videos collection, so video lookups are
unaffected. -/
theorem videoLookup_after_replaceJob (st : SysState) (j : Job)
    (videoID : String) :
    videoLookup (replaceJob st j) videoID = videoLookup st videoID := rfl

/-- When every job of the video is completed (per AreAllJobsCompleted),
workerAggregate writes ready onto the video document and leaves the jobs
collection alone. -/
theorem workerAggregate_ready (st : SysState) (videoID : String) (now : Nat)
    (v : Video) (hv : videoLookup st videoID = some v)
    (hall : MongoClient.AreAllJobsCompleted st videoID = true) :
    workerAggregate st videoID now =
      replaceVideo st { v with status := VideoStatus.ready, updatedAt := now } ∧
    videoLookup (workerAggregate st videoID now) videoID =
      some { v with status := VideoStatus.ready, updatedAt := now } ∧
    (workerAggregate st videoID now).jobs = st.jobs := by
  have hid : v.id = videoID := by simpa using List.find?_some hv
  have h1 : workerAggregate st videoID now =
      replaceVideo st { v with status := VideoStatus.ready, updatedAt := now } := by
    unfold workerAggregate
    rw [if_pos hall]
    unfold MongoClient.UpdateVideoStatus
    rw [hv]
  refine ⟨h1, ?_, ?_⟩
  · rw [h1]
    exact videoLookup_replaceVideo st videoID v _ hv hid
  · rw [h1]
    rfl

/-- After the backend CompleteJob writes `job.Complete`, the job set of
the owning video is nonempty: it contains the completed job itself. -/
theorem jobsOf_after_complete_ne_nil (st : SysState) (videoID jobID : String)
    (now : Nat) (j : Job)
    (hj : jobLookup st jobID = some j) (hvid : j.videoId = videoID) :
    jobsOf (replaceJob st (j.Complete now)) videoID ≠ [] := by
  have hmem : j ∈ st.jobs := List.mem_of_find?_eq_some hj
  have hmem2 : j.Complete now ∈ (replaceJob st (j.Complete now)).jobs := by
    unfold replaceJob
    have hmap := List.mem_map_of_mem
      (fun x => if x.id == (j.Complete now).id then j.Complete now else x) hmem
    simpa [Job.Complete] using hmap
  have hmem3 : j.Complete now ∈ jobsOf (replaceJob st (j.Complete now)) videoID := by
    unfold jobsOf
    rw [List.mem_filter]
    exact ⟨hmem2, by simp [Job.Complete, hvid]⟩
  exact List.ne_nil_of_mem hmem3

/-- Characterization of MongoClient.AreAllJobsCompleted: true exactly
when the video owns at least one job and every owned job is completed. -/
theorem AreAllJobsCompleted_iff (st : SysState) (videoID : String) :
    MongoClient.AreAllJobsCompleted st videoID = true ↔
      (jobsOf st videoID ≠ [] ∧
        (jobsOf st videoID).all Job.IsCompleted = true) := by
  have hiff := length_filter_eq_iff_all st.jobs
    (fun j => j.videoId == videoID) (fun j => j.status == JobStatus.completed)
  simp only [MongoClient.AreAllJobsCompleted, Bool.and_eq_true,
    decide_eq_true_eq, beq_iff_eq, jobsOf]
  constructor
  · rintro ⟨h1, h2⟩
    refine ⟨?_, ?_⟩
    · exact List.length_pos.mp h1
    · have := hiff.mp (by simpa using h2)
      simpa [Job.IsCompleted] using this
  · rintro ⟨h1, h2⟩
    refine ⟨List.length_pos.mpr h1, ?_⟩
    have := hiff.mpr (by simpa [Job.IsCompleted] using h2)
    simpa using this

/-! ## Theorems -/

/-- C3: for every input path, output path and quality string,
buildFFmpegArgs produces exactly the 480p profile (scale to height 480,
maxrate 1M, bufsize 2M) when the quality is "480p", and exactly the
shared 720p profile (scale to height 720, maxrate 2.5M, bufsize 5M) for
every other string — so the argument lists for "720p", "1080p" and any
unrecognized quality all coincide. -/
theorem c3_quality_profiles (inputPath outputPath quality : String) :
    (quality = "480p" →
      buildFFmpegArgs inputPath outputPath quality =
        ffmpegBaseArgs inputPath ++ profile480 ++ [outputPath]) ∧
    (quality ≠ "480p" →
      buildFFmpegArgs inputPath outputPath quality =
        ffmpegBaseArgs inputPath ++ profile720 ++ [outputPath]) := by
  constructor
  · intro h
    subst h
    rfl
  · intro h
    have h480 : (quality == "480p") = false := by
      simpa using h
    by_cases h720 : quality = "720p"
    · subst h720
      rfl
    · have h720b : (quality == "720p") = false := by simpa using h720
      by_cases h1080 : quality = "1080p"
      · subst h1080
        rfl
      · have h1080b : (quality == "1080p") = false := by simpa using h1080
        simp [buildFFmpegArgs, ffmpegBaseArgs, profile720, h480, h720b, h1080b]

/-- Witness for C3: the profiles at the concrete qualities "1080p" and
"480p". -/
theorem c3_quality_profiles_witness :
    buildFFmpegArgs "in.mp4" "out.mp4" "1080p" =
      ffmpegBaseArgs "in.mp4" ++ profile720 ++ ["out.mp4"] ∧
    buildFFmpegArgs "in.mp4" "out.mp4" "480p" =
      ffmpegBaseArgs "in.mp4" ++ profile480 ++ ["out.mp4"] :=
  ⟨(c3_quality_profiles "in.mp4" "out.mp4" "1080p").2 (by decide),
   (c3_quality_profiles "in.mp4" "out.mp4" "480p").1 rfl⟩

/-- C5: a dequeued message whose type is neither "transcode" nor
"thumbnail" is marked failed with the unknown-job-type error and the
effect trace contains no object-storage call whatsoever. -/
theorem c5_unknown_type_no_storage (m : JobMessage) (workerID ext : String)
    (ht : m.type ≠ "transcode") (hh : m.type ≠ "thumbnail") :
    processDecodedMessage m workerID ext =
      some [WorkerEffect.jobStatusWrite m.id JobStatus.processing workerID 0,
        WorkerEffect.jobFailWrite m.id ("unknown job type: " ++ m.type)] ∧
    ([WorkerEffect.jobStatusWrite m.id JobStatus.processing workerID 0,
      WorkerEffect.jobFailWrite m.id ("unknown job type: " ++ m.type)]).all
        (fun e => !e.isObjectStorage) = true := by
  have h1 : (m.type == "transcode") = false := by simpa using ht
  have h2 : (m.type == "thumbnail") = false := by simpa using hh
  exact ⟨by simp [processDecodedMessage, h1, h2], rfl⟩

/-- Witness for C5: a concrete message of type "cleanup". -/
theorem c5_unknown_type_no_storage_witness :
    processDecodedMessage
        { id := "job-9", videoId := "vid-9", type := "cleanup", payload := [] }
        "worker-1" ".mp4" =
      some [WorkerEffect.jobStatusWrite "job-9" JobStatus.processing "worker-1" 0,
        WorkerEffect.jobFailWrite "job-9" "unknown job type: cleanup"] ∧
    ([WorkerEffect.jobStatusWrite "job-9" JobStatus.processing "worker-1" 0,
      WorkerEffect.jobFailWrite "job-9" "unknown job type: cleanup"]).all
        (fun e => !e.isObjectStorage) = true :=
  c5_unknown_type_no_storage
    { id := "job-9", videoId := "vid-9", type := "cleanup", payload := [] }
    "worker-1" ".mp4" (by decide) (by decide)

/-- C7 counterexample: the claim says every dequeue implementation turns
an empty-queue timeout into a no-item result without an error, but the
backend RedisClient.Dequeue (part_011) passes the redis.Nil reply of the
timed-out BRPop straight through as an error — it has no error-free
no-item result at all. -/
theorem c7_counterexample :
    BackendRedisClient.Dequeue BRPopResult.nilReply =
      Except.error "redis: nil" := rfl

/-- C7 amended: the worker RedisClient.Dequeue translates the
empty-queue timeout reply into a nil item with no error, while the
backend RedisClient.Dequeue returns the redis.Nil reply as an error. -/
theorem c7_amended_dequeue_empty :
    WorkerRedisClient.Dequeue BRPopResult.nilReply = Except.ok none ∧
    BackendRedisClient.Dequeue BRPopResult.nilReply =
      Except.error "redis: nil" :=
  ⟨rfl, rfl⟩

/-- C9: a well-formed transcode message without a string quality field
makes the dispatch evaluate the unchecked type assertion
`job.Payload["quality"].(string)` and panic (modelled as `none`): the
message reaches neither a failed-job write nor an error return. -/
theorem c9_transcode_missing_quality_panics :
    c9Message.type = "transcode" ∧
    payloadLookup c9Message.payload "quality" = none ∧
    processDecodedMessage c9Message "worker-1" ".mp4" = none := by
  refine ⟨rfl, rfl, ?_⟩
  rfl

/-- C1 counterexample: in a state with one processing video owning one
processing job, the worker failure path (processJobs calls
VideoProcessor.FailJob on executor failure) marks the job failed with the
error text — but the owning video stays in processing: it is not marked
failed, and no error text reaches it. -/
theorem c1_counterexample :
    (jobLookup (VideoProcessor.FailJob c1State "j1" "boom" 9) "j1").map
        Job.status = some JobStatus.failed ∧
    (jobLookup (VideoProcessor.FailJob c1State "j1" "boom" 9) "j1").map
        Job.errorMessage = some "boom" ∧
    (videoLookup (VideoProcessor.FailJob c1State "j1" "boom" 9) "v1").map
        Video.status = some VideoStatus.processing ∧
    VideoStatus.processing ≠ VideoStatus.failed := by
  refine ⟨rfl, rfl, rfl, by decide⟩

/-- C1 amended: when an executor fails, the worker marks the job failed
with the captured error text and completed_at, but performs no write to
the videos collection at all — the owning video keeps its previous status
and no error text is recorded against it (the video record has no
error-message field). -/
theorem c1_amended_worker_fail (st : SysState) (jobID errorMessage : String)
    (now : Nat) (j : Job) (hj : jobLookup st jobID = some j) :
    jobLookup (VideoProcessor.FailJob st jobID errorMessage now) jobID =
      some { j with
        status := JobStatus.failed
        errorMessage := errorMessage
        completedAt := some now
        updatedAt := now } ∧
    (VideoProcessor.FailJob st jobID errorMessage now).videos = st.videos := by
  have hid : j.id = jobID := by
    have := List.find?_some hj
    simpa using this
  unfold VideoProcessor.FailJob MongoClient.FailJob
  rw [hj]
  refine ⟨?_, rfl⟩
  exact jobLookup_replaceJob st jobID j _ hj hid

/-- Witness for C1 amended at the concrete one-job state. -/
theorem c1_amended_worker_fail_witness :
    jobLookup (VideoProcessor.FailJob c1State "j1" "boom" 9) "j1" =
      some { c1Job with
        status := JobStatus.failed
        errorMessage := "boom"
        completedAt := some 9
        updatedAt := 9 } ∧
    (VideoProcessor.FailJob c1State "j1" "boom" 9).videos = c1State.videos :=
  c1_amended_worker_fail c1State "j1" "boom" 9 c1Job (by decide)

/-- C10: the backend StartJob transitions a job to processing (recording
the worker id and started_at) exactly when the job is pending; for a job
in any other status it returns the not-pending error and the store is
returned unchanged. -/
theorem c10_start_job_only_from_pending (st : SysState)
    (jobID workerID : String) (now : Nat) (j : Job)
    (hj : jobLookup st jobID = some j) :
    (j.status ≠ JobStatus.pending →
      ProcessingService.StartJob st jobID workerID now =
        (st, some ("job is not in pending status: " ++ j.status.toName))) ∧
    (j.status = JobStatus.pending →
      ProcessingService.StartJob st jobID workerID now =
        (replaceJob st (j.Start workerID now), none) ∧
      (j.Start workerID now).status = JobStatus.processing ∧
      (j.Start workerID now).workerId = workerID ∧
      (j.Start workerID now).startedAt = some now) := by
  constructor
  · intro h
    unfold ProcessingService.StartJob
    rw [hj]
    exact if_pos h
  · intro h
    refine ⟨?_, rfl, rfl, rfl⟩
    unfold ProcessingService.StartJob
    rw [hj]
    exact if_neg (by simp [h])

/-- Witness for C10 at the concrete pending job. -/
theorem c10_start_job_only_from_pending_witness :
    ProcessingService.StartJob c10State "j1" "w1" 5 =
      (replaceJob c10State (c10Job.Start "w1" 5), none) ∧
    (c10Job.Start "w1" 5).status = JobStatus.processing ∧
    (c10Job.Start "w1" 5).workerId = "w1" ∧
    (c10Job.Start "w1" 5).startedAt = some 5 :=
  (c10_start_job_only_from_pending c10State "j1" "w1" 5 c10Job (by decide)).2 rfl

/-- C8 counterexample: the claim declares completed/failed jobs immune
to every further operation, but the backend FailJob applied to the
already-completed job j1 rewrites its status to failed and its error
message — an operation of the system changes fields of a terminal job. -/
theorem c8_counterexample :
    (jobLookup c8State "j1").map Job.status = some JobStatus.completed ∧
    (jobLookup (ProcessingService.FailJob c8State "j1" "late failure" 9).1
        "j1").map Job.status = some JobStatus.failed ∧
    (jobLookup (ProcessingService.FailJob c8State "j1" "late failure" 9).1
        "j1").map Job.errorMessage = some "late failure" ∧
    JobStatus.failed ≠ JobStatus.completed := by
  refine ⟨rfl, rfl, rfl, by decide⟩

/-- C8 amended: only StartJob guards on the job status — applied to a
completed job it errors and hands back the unchanged store. The
progress-update and fail operations carry no such guard: applied to a
completed job they succeed and rewrite the job document (progress,
status, error message), so terminal-state immutability is not enforced by
the store operations; it rests on the pipeline delivering each job
message once. -/
theorem c8_terminal_not_enforced (st : SysState)
    (jobID workerID msg : String) (p : Int) (now : Nat) (j : Job) (v : Video)
    (hj : jobLookup st jobID = some j) (hst : j.status = JobStatus.completed)
    (hv : videoLookup st j.videoId = some v)
    (hp0 : 0 ≤ p) (hp1 : p ≤ 100) :
    ProcessingService.StartJob st jobID workerID now =
      (st, some ("job is not in pending status: " ++ j.status.toName)) ∧
    ProcessingService.UpdateJobProgress st jobID p now =
      (replaceJob st (j.UpdateProgress p now), none) ∧
    (j.UpdateProgress p now).progress = p ∧
    ProcessingService.FailJob st jobID msg now =
      (replaceVideo (replaceJob st (j.Fail msg now))
        (v.UpdateStatus VideoStatus.failed now), none) ∧
    (j.Fail msg now).status = JobStatus.failed ∧
    JobStatus.failed ≠ j.status := by
  refine ⟨?_, ?_, rfl, ?_, rfl, ?_⟩
  · unfold ProcessingService.StartJob
    rw [hj]
    exact if_pos (by simp [hst])
  · unfold ProcessingService.UpdateJobProgress
    rw [if_neg (by omega)]
    rw [hj]
  · simp only [ProcessingService.FailJob, ProcessingService.markVideoAsFailed, hj]
    rw [videoLookup_after_replaceJob, hv]
  · simp [hst]

/-- Witness for C8 amended at the concrete completed job. -/
theorem c8_terminal_not_enforced_witness :
    ProcessingService.StartJob c8State "j1" "w2" 9 =
      (c8State, some ("job is not in pending status: " ++
        JobStatus.toName c8Job.status)) ∧
    ProcessingService.UpdateJobProgress c8State "j1" 50 9 =
      (replaceJob c8State (c8Job.UpdateProgress 50 9), none) ∧
    (c8Job.UpdateProgress 50 9).progress = 50 ∧
    ProcessingService.FailJob c8State "j1" "boom" 9 =
      (replaceVideo (replaceJob c8State (c8Job.Fail "boom" 9))
        (c1Video.UpdateStatus VideoStatus.failed 9), none) ∧
    (c8Job.Fail "boom" 9).status = JobStatus.failed ∧
    JobStatus.failed ≠ c8Job.status :=
  c8_terminal_not_enforced c8State "j1" "w2" "boom" 50 9 c8Job c1Video
    (by decide) (by decide) (by decide) (by decide) (by decide)

/-- C6: when every job of the video is completed, running the worker
completion aggregation once sets the video status to ready, and running
it a second time re-derives the same verdict and writes ready again — the
status after the second invocation is still ready. -/
theorem c6_aggregator_idempotent (st : SysState) (videoID : String)
    (now now2 : Nat) (v : Video)
    (hv : videoLookup st videoID = some v)
    (hall : MongoClient.AreAllJobsCompleted st videoID = true) :
    (videoLookup (workerAggregate st videoID now) videoID).map Video.status =
      some VideoStatus.ready ∧
    (videoLookup (workerAggregate (workerAggregate st videoID now) videoID now2)
        videoID).map Video.status = some VideoStatus.ready := by
  obtain ⟨h1, hl1, hjobs⟩ := workerAggregate_ready st videoID now v hv hall
  have hall2 : MongoClient.AreAllJobsCompleted (workerAggregate st videoID now)
      videoID = true := by
    rw [AreAllJobsCompleted_congr (workerAggregate st videoID now) st videoID hjobs]
    exact hall
  obtain ⟨h2, hl2, hjobs2⟩ :=
    workerAggregate_ready (workerAggregate st videoID now) videoID now2 _ hl1 hall2
  constructor
  · rw [hl1]
    rfl
  · rw [hl2]
    rfl

/-- Witness for C6 at the concrete all-completed state. -/
theorem c6_aggregator_idempotent_witness :
    (videoLookup (workerAggregate c8State "v1" 7) "v1").map Video.status =
      some VideoStatus.ready ∧
    (videoLookup (workerAggregate (workerAggregate c8State "v1" 7) "v1" 8)
        "v1").map Video.status = some VideoStatus.ready :=
  c6_aggregator_idempotent c8State "v1" 7 8 c1Video (by decide) (by decide)

/-- C2: the completion aggregator is always invoked on a video that owns
the job just completed, so its job set is nonempty (hypothesis `hne`,
re-established for the backend path by the final conjunct). Under that
hypothesis: the worker condition AreAllJobsCompleted holds exactly when
every owned job is completed (with the positive count automatic), and
both aggregator implementations set the video status to ready when the
condition holds and return the state unchanged — status included — when
it does not. -/
theorem c2_aggregator_ready_iff (st : SysState) (videoID : String)
    (now : Nat) (v : Video)
    (hv : videoLookup st videoID = some v)
    (hne : jobsOf st videoID ≠ []) :
    (MongoClient.AreAllJobsCompleted st videoID = true ↔
      (jobsOf st videoID).all Job.IsCompleted = true) ∧
    ((jobsOf st videoID).all Job.IsCompleted = true →
      (videoLookup (workerAggregate st videoID now) videoID).map Video.status =
        some VideoStatus.ready ∧
      ProcessingService.checkVideoCompletion st videoID now =
        (replaceVideo st (v.UpdateStatus VideoStatus.ready now), none)) ∧
    ((jobsOf st videoID).all Job.IsCompleted = false →
      workerAggregate st videoID now = st ∧
      ProcessingService.checkVideoCompletion st videoID now = (st, none)) ∧
    (∀ jobID j, jobLookup st jobID = some j → j.videoId = videoID →
      jobsOf (replaceJob st (j.Complete now)) videoID ≠ []) := by
  have hiff := AreAllJobsCompleted_iff st videoID
  refine ⟨?_, ?_, ?_, ?_⟩
  · rw [hiff]
    simp [hne]
  · intro hall
    have hallB : MongoClient.AreAllJobsCompleted st videoID = true :=
      hiff.mpr ⟨hne, hall⟩
    obtain ⟨h1, hl1, hjobs⟩ := workerAggregate_ready st videoID now v hv hallB
    refine ⟨by rw [hl1]; rfl, ?_⟩
    unfold ProcessingService.checkVideoCompletion
    rw [if_pos hall, hv]
  · intro hfalse
    have hallB : MongoClient.AreAllJobsCompleted st videoID = false := by
      rw [Bool.eq_false_iff]
      intro hA
      have h2 := (hiff.mp hA).2
      rw [hfalse] at h2
      exact Bool.false_ne_true h2
    constructor
    · unfold workerAggregate
      rw [if_neg (by simp [hallB])]
    · unfold ProcessingService.checkVideoCompletion
      rw [if_neg (by simp [hfalse])]
  · intro jobID j hj hvid
    exact jobsOf_after_complete_ne_nil st videoID jobID now j hj hvid

/-- C4: with the uploaded video present and four fresh, pairwise distinct
job ids, ScheduleProcessingJobs succeeds and its event trace is exactly:
the processing status write first, then for the thumbnail job and each of
the 480p/720p/1080p transcode jobs a job-store create immediately
followed by the matching enqueue onto the video_jobs queue — exactly
four jobs, each created in status pending, each persisted before its
message is published. The final store holds the four new job documents
appended to the jobs collection. -/
theorem c4_fanout (st : SysState)
    (videoID thumbID id480 id720 id1080 : String) (now : Nat) (v : Video)
    (hv : videoLookup st videoID = some v)
    (hfresh : st.jobs.any (fun j => j.id == thumbID) = false ∧
      st.jobs.any (fun j => j.id == id480) = false ∧
      st.jobs.any (fun j => j.id == id720) = false ∧
      st.jobs.any (fun j => j.id == id1080) = false)
    (hdist : (thumbID == id480) = false ∧ (thumbID == id720) = false ∧
      (thumbID == id1080) = false ∧ (id480 == id720) = false ∧
      (id480 == id1080) = false ∧ (id720 == id1080) = false) :
    VideoService.ScheduleProcessingJobs st videoID thumbID id480 id720 id1080 now =
      (({ jobs := st.jobs ++
            [NewJob thumbID videoID JobType.thumbnail
              [("video_id", JsonValue.str videoID)] now,
              NewJob id480 videoID JobType.transcode
                [("video_id", JsonValue.str videoID),
                 ("quality", JsonValue.str "480p")] now,
              NewJob id720 videoID JobType.transcode
                [("video_id", JsonValue.str videoID),
                 ("quality", JsonValue.str "720p")] now,
              NewJob id1080 videoID JobType.transcode
                [("video_id", JsonValue.str videoID),
                 ("quality", JsonValue.str "1080p")] now],
          videos := (replaceVideo st
            (v.UpdateStatus VideoStatus.processing now)).videos },
        fanoutTrace videoID thumbID id480 id720 id1080 now), none) ∧
    (∀ j, FanoutEvent.jobCreate j ∈
        fanoutTrace videoID thumbID id480 id720 id1080 now →
      j.status = JobStatus.pending) := by
  obtain ⟨hf1, hf2, hf3, hf4⟩ := hfresh
  obtain ⟨hd1, hd2, hd3, hd4, hd5, hd6⟩ := hdist
  constructor
  · unfold VideoService.ScheduleProcessingJobs
    rw [hv]
    simp only [scheduleTranscodeJobs, JobRepository.Create, NewJob, replaceVideo,
      fanoutTrace, PublishThumbnailJobMsg, PublishTranscodeJobMsg,
      List.any_append, List.any_cons, List.any_nil,
      Bool.or_false, Bool.false_or, hf1, hf2, hf3, hf4, hd1, hd2, hd3, hd4,
      hd5, hd6, Bool.false_eq_true, if_false, List.append_assoc,
      List.cons_append, List.nil_append, Video.UpdateStatus]
  · intro j hj
    simp only [fanoutTrace, List.mem_cons, List.not_mem_nil, or_false] at hj
    rcases hj with h | h | h | h | h | h | h | h | h
    all_goals simp_all [NewJob]

/-- Witness for C4 at the concrete one-video state with fresh ids. -/
theorem c4_fanout_witness :
    VideoService.ScheduleProcessingJobs c1State "v1" "t1" "a1" "a2" "a3" 4 =
      (({ jobs := c1State.jobs ++
            [NewJob "t1" "v1" JobType.thumbnail
              [("video_id", JsonValue.str "v1")] 4,
              NewJob "a1" "v1" JobType.transcode
                [("video_id", JsonValue.str "v1"),
                 ("quality", JsonValue.str "480p")] 4,
              NewJob "a2" "v1" JobType.transcode
                [("video_id", JsonValue.str "v1"),
                 ("quality", JsonValue.str "720p")] 4,
              NewJob "a3" "v1" JobType.transcode
                [("video_id", JsonValue.str "v1"),
                 ("quality", JsonValue.str "1080p")] 4],
          videos := (replaceVideo c1State
            (c1Video.UpdateStatus VideoStatus.processing 4)).videos },
        fanoutTrace "v1" "t1" "a1" "a2" "a3" 4), none) :=
  (c4_fanout c1State "v1" "t1" "a1" "a2" "a3" 4 c1Video (by decide)
    ⟨by decide, by decide, by decide, by decide⟩
    ⟨by decide, by decide, by decide, by decide, by decide, by decide⟩).1

/-- Witness for C2 at the concrete all-completed state. -/
theorem c2_aggregator_ready_iff_witness :
    (videoLookup (workerAggregate c8State "v1" 11) "v1").map Video.status =
      some VideoStatus.ready ∧
    ProcessingService.checkVideoCompletion c8State "v1" 11 =
      (replaceVideo c8State (c1Video.UpdateStatus VideoStatus.ready 11), none) :=
  (c2_aggregator_ready_iff c8State "v1" 11 c1Video (by decide)
    (by decide)).2.1 (by decide)
